import Mathlib

/-!
Verification of the MedTrust Trust Layer pipeline.

The data model follows the frontend type declarations
(frontend/src/types, mirroring the backend Pydantic schemas), the
citation parsing follows AnswerPanel.formattedAnswer (frontend/src/App.tsx)
and the api client (handleResponse / submitQuery), and the Trust Layer
computations (AttributionScorer, ConfidenceCalculator, ReportAssembler,
citation-hallucination guard) are modelled from the specification and the
backend README, whose implementation files are not part of this tree.

Floating point numbers are embedded as rationals where the data is stored
(relevance scores) and as reals where the confidence formula needs a
logarithm.
-/

/-- A retrieved PubMed document, read-only input to the pipeline. -/
structure RetrievedDocument where
  pmid : String
  title : String
  abstract : String
  relevance_score : ℚ
deriving DecidableEq

/-- EvidenceReference from frontend/src/types: a projection of a document. -/
structure EvidenceReference where
  pmid : String
  title : String
  relevance_score : ℚ
deriving DecidableEq

/-- Claim record from frontend/src/types (mirrors the backend schema). -/
structure Claim where
  id : String
  text : String
  span_start : ℕ
  span_end : ℕ
  supporting_docs : List EvidenceReference
  contradicting_docs : List EvidenceReference
  neutral_docs : List EvidenceReference
  confidence : ℝ
  missing_evidence : List String

/-- EvidenceSummary from frontend/src/types. -/
structure EvidenceSummary where
  total_sources : ℕ
  supporting : ℕ
  contradicting : ℕ
  neutral : ℕ
deriving DecidableEq

/-- TrustReport from frontend/src/types. -/
structure TrustReport where
  query : String
  answer : String
  claims : List Claim
  overall_confidence : ℝ
  evidence_summary : EvidenceSummary
  global_gaps : List String

/-! ## Citation markers

Both the frontend answer renderer and the backend hallucination guard scan
for markers of the form [PMID:digits].  The JS regex \[PMID:(\d+)\] matches
the literal head, then a maximal nonempty digit run, then a closing bracket
(the greedy digit run cannot backtrack successfully, because a digit is
never the closing bracket). -/

/-- The six literal characters opening a citation marker. -/
def citeHead : List Char := ['[', 'P', 'M', 'I', 'D', ':']

/-- Try to match the regex at the head of the character list.  On success,
returns the captured digit run and the characters after the marker. -/
def tryCite (l : List Char) : Option (List Char × List Char) :=
  match l with
  | '[' :: 'P' :: 'M' :: 'I' :: 'D' :: ':' :: rest =>
    let ds := rest.takeWhile Char.isDigit
    if ds.isEmpty then none
    else
      match rest.dropWhile Char.isDigit with
      | ']' :: tail => some (ds, tail)
      | _ => none
  | _ => none

theorem tryCite_eq_some {l ds tail : List Char}
    (h : tryCite l = some (ds, tail)) :
    l = citeHead ++ ds ++ ']' :: tail := by
  unfold tryCite at h
  split at h
  case h_2 => exact absurd h (by simp)
  case h_1 rest =>
    simp only [] at h
    split at h
    · exact absurd h (by simp)
    · split at h
      case h_1 tail2 heq =>
        rw [Option.some_inj, Prod.mk.injEq] at h
        obtain ⟨hds, htail⟩ := h
        subst hds
        subst htail
        have hsplit := List.takeWhile_append_dropWhile (p := Char.isDigit) (l := rest)
        simp only [citeHead, List.cons_append, List.nil_append, List.cons.injEq, true_and]
        rw [← heq]
        exact hsplit.symm
      case h_2 => exact absurd h (by simp)

theorem tryCite_length {l ds tail : List Char}
    (h : tryCite l = some (ds, tail)) : tail.length < l.length := by
  have hl := tryCite_eq_some h
  subst hl
  simp [citeHead]
  omega

/-! ## AnswerPanel citation parsing (frontend/src/App.tsx, formattedAnswer)

The component walks the answer with pmidRegex.exec, pushing the text
between matches and the captured pmid of each match, then the remaining
text.  The scan is embedded with explicit fuel (one unit per character);
the JS loop consumes at least one character per iteration, so fuel equal
to the length of the input is always sufficient. -/

/-- One entry of the parts array built by formattedAnswer: either a plain
text segment or a parsed citation (the captured digits). -/
inductive AnswerPart
  | text (s : List Char)
  | cite (pmid : List Char)
deriving DecidableEq

/-- Render a part back to characters: a text part is itself, a cite part
renders as the full marker, which is how the claim reads markers back. -/
def renderPart : AnswerPart → List Char
  | .text s => s
  | .cite p => citeHead ++ p ++ [']']

/-- Concatenation of the rendered parts. -/
def joinParts (ps : List AnswerPart) : List Char :=
  (ps.map renderPart).flatten

/-- The exec loop of formattedAnswer.  acc holds, reversed, the text seen
since the previous match; on a match the pending text (if nonempty), the
citation, and the scan of the remainder are emitted; at the end the
pending text is emitted if nonempty.  The zero-fuel branch is unreachable
when the fuel is at least the length of the input. -/
def scanFuel : ℕ → List Char → List Char → List AnswerPart
  | _, acc, [] => if acc.isEmpty then [] else [.text acc.reverse]
  | 0, acc, _ :: _ => if acc.isEmpty then [] else [.text acc.reverse]
  | n + 1, acc, c :: cs =>
    match tryCite (c :: cs) with
    | some (ds, tail) =>
      (if acc.isEmpty then [] else [.text acc.reverse]) ++ .cite ds :: scanFuel n [] tail
    | none => scanFuel n (c :: acc) cs

/-- formattedAnswer: decompose the answer into text segments and
citations. -/
def parseAnswer (s : String) : List AnswerPart :=
  scanFuel s.data.length [] s.data

/-- Rendered parts as a string. -/
def partsToString (ps : List AnswerPart) : String :=
  String.mk (joinParts ps)

theorem joinParts_flush (acc : List Char) :
    joinParts (if acc.isEmpty then [] else [.text acc.reverse]) = acc.reverse := by
  by_cases hacc : acc.isEmpty
  · rw [List.isEmpty_iff.mp hacc]
    simp [joinParts]
  · simp [hacc, joinParts, renderPart]

theorem joinParts_scanFuel :
    ∀ (n : ℕ) (acc l : List Char), l.length ≤ n →
      joinParts (scanFuel n acc l) = acc.reverse ++ l := by
  intro n
  induction n with
  | zero =>
    intro acc l hl
    have hnil : l = [] := List.length_eq_zero.mp (Nat.le_zero.mp hl)
    subst hnil
    rw [show scanFuel 0 acc [] = if acc.isEmpty then [] else [.text acc.reverse] from rfl,
      joinParts_flush]
    simp
  | succ n ih =>
    intro acc l hl
    cases l with
    | nil =>
      rw [show scanFuel (n + 1) acc [] = if acc.isEmpty then [] else [.text acc.reverse] from rfl,
        joinParts_flush]
      simp
    | cons c cs =>
      cases htc : tryCite (c :: cs) with
      | some p =>
        obtain ⟨ds, tail⟩ := p
        have hlen := tryCite_length htc
        have hshape := tryCite_eq_some htc
        have hrec := ih [] tail (by simp only [List.length_cons] at hl hlen; omega)
        simp only [scanFuel, htc]
        simp only [joinParts, List.map_append, List.flatten_append, List.map_cons,
          List.flatten_cons, renderPart] at hrec ⊢
        rw [hrec, hshape]
        by_cases hacc : acc.isEmpty
        · rw [List.isEmpty_iff.mp hacc]
          simp
        · simp [hacc, renderPart]
      | none =>
        have hrec := ih (c :: acc) cs (by simpa using hl)
        simp only [scanFuel, htc]
        rw [hrec]
        simp

/-- C10: for every answer string, the citation parsing of AnswerPanel
splits the answer into text segments and citation markers whose
concatenation, with each citation rendered back as its original marker,
reconstructs the answer exactly (a lossless round-trip). -/
theorem answer_parse_roundtrip (s : String) :
    partsToString (parseAnswer s) = s := by
  cases s with
  | mk data =>
    unfold partsToString parseAnswer
    rw [joinParts_scanFuel data.length [] data (le_refl _)]
    simp

/-! ## Citation-hallucination guard

Modelled from the spec: the backend attribution scorer and its
verify_citations helper (sketched in the improvement plan) are not part of
this tree.  extract_pmids collects every citation marker of the answer; a
marker can never start strictly inside another marker (the interior of a
marker contains no opening bracket), so scanning one character at a time
finds exactly the matches of the non-overlapping regex search. -/

/-- All pmids cited in a character sequence, in order of appearance,
duplicates kept. -/
def extractPmidsAux : List Char → List String
  | [] => []
  | c :: cs =>
    match tryCite (c :: cs) with
    | some (ds, _) => String.mk ds :: extractPmidsAux cs
    | none => extractPmidsAux cs

/-- Modelled from the spec: extract_pmids, the pmids of all citation
markers embedded in the answer. -/
def extract_pmids (answer : String) : List String :=
  extractPmidsAux answer.data

/-- Modelled from the spec: verify_citations returns the hallucinated
pmids, the cited pmids that are absent from the retrieved document set. -/
def verify_citations (answer : String) (retrieved_docs : List RetrievedDocument) :
    List String :=
  (extract_pmids answer).filter
    (fun p => decide (p ∉ retrieved_docs.map RetrievedDocument.pmid))

/-! ## AttributionScorer

Modelled from the spec: for each claim, every supplied document is
classified into exactly one of the three verdicts by the injected
text-reasoning capability, and each evidence list is sorted descending by
relevance score with ties broken by ascending pmid. -/

/-- The closed verdict variant for one claim-document pair. -/
inductive Verdict
  | supports
  | contradicts
  | neutral
deriving DecidableEq

/-- Read-only projection of a document into an evidence reference. -/
def toRef (d : RetrievedDocument) : EvidenceReference :=
  { pmid := d.pmid, title := d.title, relevance_score := d.relevance_score }

/-- Evidence ordering: higher relevance score first, ties by ascending
pmid. -/
def evLE (a b : EvidenceReference) : Prop :=
  b.relevance_score < a.relevance_score ∨
    (a.relevance_score = b.relevance_score ∧ a.pmid ≤ b.pmid)

instance : DecidableRel evLE := fun a b => by
  unfold evLE
  infer_instance

instance : IsTotal EvidenceReference evLE where
  total a b := by
    rcases lt_trichotomy a.relevance_score b.relevance_score with h | h | h
    · exact Or.inr (Or.inl h)
    · rcases le_total a.pmid b.pmid with hp | hp
      · exact Or.inl (Or.inr ⟨h, hp⟩)
      · exact Or.inr (Or.inr ⟨h.symm, hp⟩)
    · exact Or.inl (Or.inl h)

instance : IsTrans EvidenceReference evLE where
  trans a b c hab hbc := by
    rcases hab with hab | ⟨hab, hab2⟩ <;> rcases hbc with hbc | ⟨hbc, hbc2⟩
    · exact Or.inl (lt_trans hbc hab)
    · exact Or.inl (hbc ▸ hab)
    · exact Or.inl (hab ▸ hbc)
    · exact Or.inr ⟨hab.trans hbc, le_trans hab2 hbc2⟩

/-- Sort an evidence list deterministically. -/
def sortEvidence (l : List EvidenceReference) : List EvidenceReference :=
  l.insertionSort evLE

/-- Modelled from the spec: AttributionScorer.score classifies each
supplied document for the claim text and buckets it by its verdict,
sorting each bucket.  classify stands for the injected text-reasoning
capability (with the fail-open neutral default already applied). -/
def AttributionScorer.score (classify : String → RetrievedDocument → Verdict)
    (claim_text : String) (documents : List RetrievedDocument) :
    List EvidenceReference × List EvidenceReference × List EvidenceReference :=
  (sortEvidence ((documents.filter
      (fun d => decide (classify claim_text d = Verdict.supports))).map toRef),
   sortEvidence ((documents.filter
      (fun d => decide (classify claim_text d = Verdict.contradicts))).map toRef),
   sortEvidence ((documents.filter
      (fun d => decide (classify claim_text d = Verdict.neutral))).map toRef))


/-! ## ConfidenceCalculator

Modelled from the spec and the backend README formula
confidence = evidence_agreement x log(num_sources + 1) x quality_weight,
clamped to the unit interval.  The quality weight is the unspecified
normalization constant in (0,1]; it is a parameter here.  Real numbers
stand for floats, so no NaN value exists in the embedding; the division
guard of evidence_agreement is the explicit zero case. -/

/-- The pmids of an evidence list. -/
def pmidsOf (l : List EvidenceReference) : List String :=
  l.map EvidenceReference.pmid

/-- Count of distinct documents classified as supporting or contradicting
(neutral excluded). -/
def num_sources (sup con : List EvidenceReference) : ℕ :=
  (pmidsOf sup ++ pmidsOf con).dedup.length

/-- Proportion of supporting minus proportion of contradicting documents
among the non-neutral documents; zero when there is no supporting or
contradicting evidence at all (no division by zero). -/
def evidence_agreement (sup con : List EvidenceReference) : ℚ :=
  if (pmidsOf sup).dedup.length + (pmidsOf con).dedup.length = 0 then 0
  else (((pmidsOf sup).dedup.length : ℚ) - ((pmidsOf con).dedup.length : ℚ))
    / (((pmidsOf sup).dedup.length : ℚ) + ((pmidsOf con).dedup.length : ℚ))

/-- Clamp to the unit interval, applied after the computation. -/
noncomputable def clamp01 (x : ℝ) : ℝ := max 0 (min x 1)

/-- Modelled from the spec: the per-claim confidence formula. -/
noncomputable def confidence_formula (quality_weight : ℝ)
    (sup con : List EvidenceReference) : ℝ :=
  clamp01 ((evidence_agreement sup con : ℝ)
    * Real.log ((num_sources sup con : ℝ) + 1) * quality_weight)

/-- Modelled from the spec: ConfidenceCalculator.compute, the per-claim
confidence as a function of the claim's attribution lists. -/
noncomputable def ConfidenceCalculator.compute (quality_weight : ℝ) (c : Claim) : ℝ :=
  confidence_formula quality_weight c.supporting_docs c.contradicting_docs

/-- Modelled from the spec: ConfidenceCalculator.aggregate, the unweighted
mean of the per-claim confidences, zero for zero claims. -/
noncomputable def ConfidenceCalculator.aggregate (claims : List Claim) : ℝ :=
  if claims.isEmpty then 0
  else (claims.map Claim.confidence).sum / (claims.length : ℝ)

/-! ## Pipeline and ReportAssembler

Modelled from the spec: the extraction, per-pair classification, per-claim
missing-evidence notes and global gap detection are outputs of the
injected text-reasoning capability; they are parameters of the pipeline.
The assembler recomputes the evidence summary from the scored claims and
appends one gap per hallucinated citation. -/

/-- One claim as handed over by the ClaimExtractor, before scoring. -/
structure ExtractedClaim where
  id : String
  text : String
  span_start : ℕ
  span_end : ℕ

/-- Score one extracted claim: attribution lists, then the derived
confidence, then the claim-level missing evidence. -/
noncomputable def buildClaim (classify : String → RetrievedDocument → Verdict)
    (missingOf : String → List String) (quality_weight : ℝ)
    (documents : List RetrievedDocument) (e : ExtractedClaim) : Claim :=
  let scored := AttributionScorer.score classify e.text documents
  { id := e.id
    text := e.text
    span_start := e.span_start
    span_end := e.span_end
    supporting_docs := scored.1
    contradicting_docs := scored.2.1
    neutral_docs := scored.2.2
    confidence := confidence_formula quality_weight scored.1 scored.2.1
    missing_evidence := missingOf e.text }

/-- Every pmid cited in any evidence list of any claim, with
repetitions. -/
def citedPmids (claims : List Claim) : List String :=
  claims.flatMap (fun c =>
    pmidsOf c.supporting_docs ++ pmidsOf c.contradicting_docs ++ pmidsOf c.neutral_docs)

/-- Modelled from the spec: the assembler's evidence summary — distinct
pmids for total_sources, classification instance counts for the rest. -/
def reportEvidenceSummary (claims : List Claim) : EvidenceSummary :=
  { total_sources := (citedPmids claims).dedup.length
    supporting := (claims.map (fun c => c.supporting_docs.length)).sum
    contradicting := (claims.map (fun c => c.contradicting_docs.length)).sum
    neutral := (claims.map (fun c => c.neutral_docs.length)).sum }

/-- The gap recorded for a hallucinated citation. -/
def hallucinationGap (p : String) : String :=
  "Unverifiable citation [PMID:" ++ p ++ "]"

/-- One gap per citation excluded by the hallucination guard. -/
def hallucinationGaps (answer : String) (documents : List RetrievedDocument) :
    List String :=
  (verify_citations answer documents).map hallucinationGap

/-- Modelled from the spec: the full Trust Layer run — score every
extracted claim, compute confidences, assemble the immutable report with
the recomputed evidence summary and the global gaps (detector output plus
one gap per hallucinated citation). -/
noncomputable def runTrustLayer (classify : String → RetrievedDocument → Verdict)
    (missingOf : String → List String) (detectedGaps : List String)
    (quality_weight : ℝ) (query answer : String)
    (documents : List RetrievedDocument) (extracted : List ExtractedClaim) :
    TrustReport :=
  let claims := extracted.map (buildClaim classify missingOf quality_weight documents)
  { query := query
    answer := answer
    claims := claims
    overall_confidence := ConfidenceCalculator.aggregate claims
    evidence_summary := reportEvidenceSummary claims
    global_gaps := detectedGaps ++ hallucinationGaps answer documents }

/-! ## API client (frontend api client: ApiError, handleResponse, submitQuery)

The fetch call itself is external I/O; its outcome is the HttpResponse
input.  The JSON parse outcome of the response body is embedded as an
optional parsed value: none when the body is not valid JSON, an error
object with an optional detail field, or a trust report.  The JS
expression error.detail or-else fallback takes the fallback on a missing
detail and on an empty-string detail (both falsy). -/

/-- A parsed JSON response body. -/
inductive JsonBody
  | reportBody (report : TrustReport)
  | errorBody (detail : Option String)

/-- The fetch response as seen by handleResponse. -/
structure HttpResponse where
  ok : Bool
  status : Nat
  body : Option JsonBody

/-- How the returned promise settles. -/
inductive FetchResult
  | success (body : JsonBody)
  | parseFailure
  | failure (status : Nat) (message : String)

/-- The detail field of the parsed error body after the catch handler:
an unparsable body is replaced by the literal Unknown error object. -/
def errorDetail : Option JsonBody → Option String
  | none => some "Unknown error"
  | some (.errorBody d) => d
  | some (.reportBody _) => none

/-- The or-else fallback applied to the detail field (JS truthiness:
missing and empty string are both falsy). -/
def errorMessage (b : Option JsonBody) : String :=
  match errorDetail b with
  | some d => if d = "" then "Request failed" else d
  | none => "Request failed"

/-- handleResponse: resolve with the parsed body when ok, reject with the
json parse error when ok and the body is unparsable, and otherwise throw
an ApiError carrying the response status and the derived message. -/
def handleResponse (r : HttpResponse) : FetchResult :=
  if r.ok then
    match r.body with
    | some b => .success b
    | none => .parseFailure
  else
    .failure r.status (errorMessage r.body)

/-- submitQuery posts the query (external I/O, the response is the input
here) and pipes the response through handleResponse. -/
def submitQuery (response : HttpResponse) : FetchResult :=
  handleResponse response

/-! ## Claim theorems: ConfidenceCalculator -/

theorem clamp01_nonneg (x : ℝ) : 0 ≤ clamp01 x := le_max_left 0 _

theorem clamp01_le_one (x : ℝ) : clamp01 x ≤ 1 :=
  max_le (by norm_num) (min_le_right x 1)

/-- C1: the per-claim confidence computed by ConfidenceCalculator.compute
is exactly the clamped formula agreement x log(sources + 1) x quality
weight; it never leaves the unit interval, and the agreement term is
defined to be zero instead of dividing by a zero denominator. -/
theorem confidence_compute_spec (qw : ℝ) (c : Claim) :
    ConfidenceCalculator.compute qw c
      = clamp01 ((evidence_agreement c.supporting_docs c.contradicting_docs : ℝ)
          * Real.log ((num_sources c.supporting_docs c.contradicting_docs : ℝ) + 1) * qw)
    ∧ 0 ≤ ConfidenceCalculator.compute qw c
    ∧ ConfidenceCalculator.compute qw c ≤ 1
    ∧ (num_sources c.supporting_docs c.contradicting_docs = 0 →
        evidence_agreement c.supporting_docs c.contradicting_docs = 0) := by
  refine ⟨rfl, clamp01_nonneg _, clamp01_le_one _, fun h => ?_⟩
  have hnil : pmidsOf c.supporting_docs ++ pmidsOf c.contradicting_docs = [] := by
    have hd := List.length_eq_zero.mp h
    exact (List.dedup_eq_nil _).mp hd
  have hs := (List.append_eq_nil.mp hnil).1
  have hc := (List.append_eq_nil.mp hnil).2
  unfold evidence_agreement
  rw [hs, hc]
  simp

/-- C2: whenever a claim has zero distinct supporting-or-contradicting
documents, the computed confidence is exactly zero (the logarithmic term
vanishes, whatever the agreement), and every confidence lies in the unit
interval. -/
theorem confidence_zero_sources (qw : ℝ) (c : Claim) :
    (num_sources c.supporting_docs c.contradicting_docs = 0 →
      ConfidenceCalculator.compute qw c = 0)
    ∧ 0 ≤ ConfidenceCalculator.compute qw c
    ∧ ConfidenceCalculator.compute qw c ≤ 1 := by
  refine ⟨fun h => ?_, clamp01_nonneg _, clamp01_le_one _⟩
  unfold ConfidenceCalculator.compute confidence_formula
  rw [h]
  norm_num [clamp01, Real.log_one]

/-- C7: a claim with three distinct unanimous supporting documents has
agreement one and three sources, and its confidence is strictly above the
confidence of the same claim with a single supporting document, for every
quality weight in (0,1]. -/
theorem confidence_monotone_sources (qw : ℝ) (a b : Claim)
    (hqw0 : 0 < qw) (hqw1 : qw ≤ 1)
    (ha3 : (pmidsOf a.supporting_docs).dedup.length = 3)
    (hac : a.contradicting_docs = [])
    (hb1 : (pmidsOf b.supporting_docs).dedup.length = 1)
    (hbc : b.contradicting_docs = []) :
    evidence_agreement a.supporting_docs a.contradicting_docs = 1
    ∧ num_sources a.supporting_docs a.contradicting_docs = 3
    ∧ ConfidenceCalculator.compute qw b < ConfidenceCalculator.compute qw a := by
  have hA : evidence_agreement a.supporting_docs a.contradicting_docs = 1 := by
    unfold evidence_agreement
    rw [hac, ha3]
    norm_num [pmidsOf]
  have hNa : num_sources a.supporting_docs a.contradicting_docs = 3 := by
    unfold num_sources
    rw [hac]
    simpa [pmidsOf] using ha3
  have hB : evidence_agreement b.supporting_docs b.contradicting_docs = 1 := by
    unfold evidence_agreement
    rw [hbc, hb1]
    norm_num [pmidsOf]
  have hNb : num_sources b.supporting_docs b.contradicting_docs = 1 := by
    unfold num_sources
    rw [hbc]
    simpa [pmidsOf] using hb1
  refine ⟨hA, hNa, ?_⟩
  have hca : ConfidenceCalculator.compute qw a = clamp01 (Real.log 4 * qw) := by
    unfold ConfidenceCalculator.compute confidence_formula
    rw [hA, hNa]
    norm_num
  have hcb : ConfidenceCalculator.compute qw b = clamp01 (Real.log 2 * qw) := by
    unfold ConfidenceCalculator.compute confidence_formula
    rw [hB, hNb]
    norm_num
  rw [hca, hcb]
  have hlog2pos : (0 : ℝ) < Real.log 2 := Real.log_pos (by norm_num)
  have hlog2lt : Real.log 2 < 1 :=
    lt_trans Real.log_two_lt_d9 (by norm_num)
  have hlog24 : Real.log 2 < Real.log 4 :=
    Real.log_lt_log (by norm_num) (by norm_num)
  have hx2pos : 0 < Real.log 2 * qw := mul_pos hlog2pos hqw0
  have hx2lt : Real.log 2 * qw < 1 :=
    lt_of_le_of_lt (mul_le_of_le_one_right (le_of_lt hlog2pos) hqw1) hlog2lt
  have hcb2 : clamp01 (Real.log 2 * qw) = Real.log 2 * qw := by
    unfold clamp01
    rw [min_eq_left (le_of_lt hx2lt), max_eq_right (le_of_lt hx2pos)]
  rw [hcb2]
  unfold clamp01
  rcases le_or_lt (Real.log 4 * qw) 1 with h4 | h4
  · rw [min_eq_left h4]
    have h42 : Real.log 2 * qw < Real.log 4 * qw :=
      mul_lt_mul_of_pos_right hlog24 hqw0
    exact lt_of_lt_of_le h42 (le_max_right _ _)
  · rw [min_eq_right (le_of_lt h4), max_eq_right (by norm_num : (0:ℝ) ≤ 1)]
    exact hx2lt

/-! ## Claim theorems: AttributionScorer and ReportAssembler -/

theorem pmid_mem_bucket {p : String} {f : RetrievedDocument → Bool}
    {docs : List RetrievedDocument} :
    p ∈ pmidsOf (sortEvidence ((docs.filter f).map toRef)) ↔
      ∃ d ∈ docs, f d = true ∧ d.pmid = p := by
  simp only [pmidsOf, List.mem_map, sortEvidence, List.mem_insertionSort,
    List.mem_filter]
  constructor
  · rintro ⟨r, ⟨d, ⟨hd, hf⟩, rfl⟩, rfl⟩
    exact ⟨d, hd, hf, rfl⟩
  · rintro ⟨d, hd, hf, rfl⟩
    exact ⟨toRef d, ⟨d, ⟨hd, hf⟩, rfl⟩, rfl⟩

/-- C8: each of the three evidence lists produced by the attribution
scorer is sorted descending by relevance score with ties broken by
ascending pmid; the scorer is a pure function, so the order is
deterministic. -/
theorem evidence_lists_sorted (classify : String → RetrievedDocument → Verdict)
    (claim_text : String) (documents : List RetrievedDocument) :
    (AttributionScorer.score classify claim_text documents).1.Sorted evLE
    ∧ (AttributionScorer.score classify claim_text documents).2.1.Sorted evLE
    ∧ (AttributionScorer.score classify claim_text documents).2.2.Sorted evLE :=
  ⟨List.sorted_insertionSort evLE _, List.sorted_insertionSort evLE _,
    List.sorted_insertionSort evLE _⟩

/-- C3: in every assembled trust report built from documents with unique
pmids, a document appears in at most one of the three evidence lists of
any single claim. -/
theorem attribution_partition (classify : String → RetrievedDocument → Verdict)
    (missingOf : String → List String) (detectedGaps : List String)
    (quality_weight : ℝ) (query answer : String)
    (documents : List RetrievedDocument) (extracted : List ExtractedClaim)
    (hnd : (documents.map RetrievedDocument.pmid).Nodup)
    (c : Claim)
    (hc : c ∈ (runTrustLayer classify missingOf detectedGaps quality_weight
        query answer documents extracted).claims)
    (p : String) :
    ¬(p ∈ pmidsOf c.supporting_docs ∧ p ∈ pmidsOf c.contradicting_docs)
    ∧ ¬(p ∈ pmidsOf c.supporting_docs ∧ p ∈ pmidsOf c.neutral_docs)
    ∧ ¬(p ∈ pmidsOf c.contradicting_docs ∧ p ∈ pmidsOf c.neutral_docs) := by
  simp only [runTrustLayer, List.mem_map] at hc
  obtain ⟨e, _, rfl⟩ := hc
  have key : ∀ (v w : Verdict), v ≠ w →
      ¬(p ∈ pmidsOf (sortEvidence ((documents.filter
            (fun d => decide (classify e.text d = v))).map toRef))
        ∧ p ∈ pmidsOf (sortEvidence ((documents.filter
            (fun d => decide (classify e.text d = w))).map toRef))) := by
    rintro v w hvw ⟨h1, h2⟩
    obtain ⟨d1, hd1, hf1, hp1⟩ := pmid_mem_bucket.mp h1
    obtain ⟨d2, hd2, hf2, hp2⟩ := pmid_mem_bucket.mp h2
    have hdd : d1 = d2 :=
      List.inj_on_of_nodup_map hnd hd1 hd2 (hp1.trans hp2.symm)
    subst hdd
    rw [decide_eq_true_eq] at hf1 hf2
    exact hvw (hf1.symm.trans hf2)
  exact ⟨key Verdict.supports Verdict.contradicts (by simp),
    key Verdict.supports Verdict.neutral (by simp),
    key Verdict.contradicts Verdict.neutral (by simp)⟩

theorem verify_citations_not_retrieved {answer : String}
    {docs : List RetrievedDocument} {p : String}
    (hp : p ∈ verify_citations answer docs) :
    p ∉ docs.map RetrievedDocument.pmid := by
  unfold verify_citations at hp
  have h := (List.mem_filter.mp hp).2
  simpa using h

/-- C4: a citation marker whose pmid is not among the supplied documents
never shows up in any evidence list of any claim of the assembled report,
and the guard records a gap naming it. -/
theorem hallucinated_citation_excluded
    (classify : String → RetrievedDocument → Verdict)
    (missingOf : String → List String) (detectedGaps : List String)
    (quality_weight : ℝ) (query answer : String)
    (documents : List RetrievedDocument) (extracted : List ExtractedClaim)
    (p : String) (hp : p ∈ verify_citations answer documents) :
    (∀ c ∈ (runTrustLayer classify missingOf detectedGaps quality_weight
        query answer documents extracted).claims,
      p ∉ pmidsOf c.supporting_docs ∧ p ∉ pmidsOf c.contradicting_docs
        ∧ p ∉ pmidsOf c.neutral_docs)
    ∧ hallucinationGap p ∈ (runTrustLayer classify missingOf detectedGaps
        quality_weight query answer documents extracted).global_gaps := by
  have hpd := verify_citations_not_retrieved hp
  constructor
  · intro c hc
    simp only [runTrustLayer, List.mem_map] at hc
    obtain ⟨e, _, rfl⟩ := hc
    have key : ∀ v : Verdict,
        p ∉ pmidsOf (sortEvidence ((documents.filter
          (fun d => decide (classify e.text d = v))).map toRef)) := by
      intro v hmem
      obtain ⟨d, hd, _, hdp⟩ := pmid_mem_bucket.mp hmem
      exact hpd (List.mem_map.mpr ⟨d, hd, hdp⟩)
    exact ⟨key Verdict.supports, key Verdict.contradicts, key Verdict.neutral⟩
  · have : hallucinationGap p ∈ hallucinationGaps answer documents :=
      List.mem_map.mpr ⟨p, hp, rfl⟩
    simpa [runTrustLayer] using List.mem_append_right detectedGaps this

/-- C5: with zero extracted claims the pipeline still assembles a full
report: the overall confidence is exactly zero (reals carry no NaN), the
evidence summary counts are all zero, and the global gap list is exactly
the detector output plus the hallucination gaps. -/
theorem zero_claims_report (classify : String → RetrievedDocument → Verdict)
    (missingOf : String → List String) (detectedGaps : List String)
    (quality_weight : ℝ) (query answer : String)
    (documents : List RetrievedDocument) :
    (runTrustLayer classify missingOf detectedGaps quality_weight
        query answer documents []).claims = []
    ∧ (runTrustLayer classify missingOf detectedGaps quality_weight
        query answer documents []).overall_confidence = 0
    ∧ (runTrustLayer classify missingOf detectedGaps quality_weight
        query answer documents []).evidence_summary
      = { total_sources := 0, supporting := 0, contradicting := 0, neutral := 0 }
    ∧ (runTrustLayer classify missingOf detectedGaps quality_weight
        query answer documents []).global_gaps
      = detectedGaps ++ hallucinationGaps answer documents := by
  refine ⟨rfl, ?_, ?_, rfl⟩
  · simp [runTrustLayer, ConfidenceCalculator.aggregate]
  · simp [runTrustLayer, reportEvidenceSummary, citedPmids]

/-- C6: the assembled total_sources is the number of distinct pmids
appearing in some evidence list of some claim, and a pmid excluded by the
hallucination guard is never among them. -/
theorem total_sources_distinct (classify : String → RetrievedDocument → Verdict)
    (missingOf : String → List String) (detectedGaps : List String)
    (quality_weight : ℝ) (query answer : String)
    (documents : List RetrievedDocument) (extracted : List ExtractedClaim)
    (p : String) (hp : p ∈ verify_citations answer documents) :
    (runTrustLayer classify missingOf detectedGaps quality_weight
        query answer documents extracted).evidence_summary.total_sources
      = (citedPmids (runTrustLayer classify missingOf detectedGaps quality_weight
          query answer documents extracted).claims).toFinset.card
    ∧ p ∉ citedPmids (runTrustLayer classify missingOf detectedGaps quality_weight
        query answer documents extracted).claims := by
  have hpd := verify_citations_not_retrieved hp
  constructor
  · simp only [runTrustLayer, reportEvidenceSummary]
    exact (List.card_toFinset _).symm
  · intro hmem
    simp only [citedPmids, List.mem_flatMap, runTrustLayer, List.mem_map] at hmem
    obtain ⟨c, ⟨e, _, rfl⟩, hpc⟩ := hmem
    have key : ∀ v : Verdict,
        p ∉ pmidsOf (sortEvidence ((documents.filter
          (fun d => decide (classify e.text d = v))).map toRef)) := by
      intro v hm
      obtain ⟨d, hd, _, hdp⟩ := pmid_mem_bucket.mp hm
      exact hpd (List.mem_map.mpr ⟨d, hd, hdp⟩)
    rcases List.mem_append.mp hpc with hpc | hpc
    · rcases List.mem_append.mp hpc with hpc | hpc
      · exact key Verdict.supports hpc
      · exact key Verdict.contradicts hpc
    · exact key Verdict.neutral hpc

/-! ## Claim theorems: api client -/

/-- A non-ok response whose parsed error body carries an empty-string
detail field. -/
def respEmptyDetail : HttpResponse :=
  { ok := false, status := 400, body := some (.errorBody (some "")) }

/-- C9 counterexample: for a non-ok response whose JSON body parses and
has the detail field empty, the thrown ApiError message is the literal
Request failed, not the body's detail field — the claim's description of
the message is false at this input (the detail field is the empty string,
the message is not). -/
theorem submitQuery_detail_counterexample :
    submitQuery respEmptyDetail = FetchResult.failure 400 "Request failed"
    ∧ "Request failed" ≠ "" :=
  ⟨rfl, by decide⟩

/-- C9 amended: submitQuery resolves with the parsed body exactly on an
ok response with parseable JSON; on a non-ok response it throws an
ApiError carrying the response status, whose message is the detail field
when that is a non-empty string, the literal Unknown error when the body
cannot be parsed as JSON, and the literal Request failed when the body
parses but its detail is missing or empty; it never resolves from a
non-ok response. -/
theorem submitQuery_spec (r : HttpResponse) :
    (∀ b, submitQuery r = FetchResult.success b → r.ok = true)
    ∧ (r.ok = true → ∀ b, r.body = some b → submitQuery r = FetchResult.success b)
    ∧ (r.ok = false → r.body = none →
        submitQuery r = FetchResult.failure r.status "Unknown error")
    ∧ (r.ok = false → ∀ d, r.body = some (.errorBody (some d)) → d ≠ "" →
        submitQuery r = FetchResult.failure r.status d)
    ∧ (r.ok = false →
        (r.body = some (.errorBody none) ∨ r.body = some (.errorBody (some ""))) →
        submitQuery r = FetchResult.failure r.status "Request failed") := by
  cases hok : r.ok with
  | true =>
    refine ⟨fun b _ => rfl, fun _ b hb => ?_, fun h => absurd h (by simp),
      fun h => absurd h (by simp), fun h => absurd h (by simp)⟩
    simp [submitQuery, handleResponse, hok, hb]
  | false =>
    refine ⟨fun b hb => ?_, fun h => absurd h (by simp), fun _ hb => ?_,
      fun _ d hb hd => ?_, fun _ hb => ?_⟩
    · rw [submitQuery, handleResponse] at hb
      simp [hok] at hb
    · simp [submitQuery, handleResponse, hok, hb, errorMessage, errorDetail]
    · simp [submitQuery, handleResponse, hok, hb, errorMessage, errorDetail, hd]
    · rcases hb with hb | hb <;>
        simp [submitQuery, handleResponse, hok, hb, errorMessage, errorDetail]

/-- A non-ok response carrying a non-empty detail. -/
def respDetail : HttpResponse :=
  { ok := false, status := 500, body := some (.errorBody (some "boom")) }

theorem submitQuery_spec_witness :
    respDetail.ok = false
    ∧ submitQuery respDetail = FetchResult.failure 500 "boom" :=
  ⟨rfl, (submitQuery_spec respDetail).2.2.2.1 rfl "boom" rfl (by decide)⟩

/-! ## Concrete witnesses -/

/-- Example documents with distinct pmids. -/
def docA : RetrievedDocument :=
  { pmid := "111", title := "Doc A", abstract := "adult cohort study", relevance_score := 9/10 }

def docB : RetrievedDocument :=
  { pmid := "222", title := "Doc B", abstract := "rct", relevance_score := 6/10 }

def docC : RetrievedDocument :=
  { pmid := "333", title := "Doc C", abstract := "review", relevance_score := 6/10 }

def docsEx : List RetrievedDocument := [docA, docB, docC]

/-- A claim with three distinct unanimous supporting documents. -/
noncomputable def claimThree : Claim :=
  { id := "claim_1", text := "Drug X reduces mortality", span_start := 0, span_end := 24
    supporting_docs := [toRef docA, toRef docB, toRef docC]
    contradicting_docs := [], neutral_docs := []
    confidence := 0, missing_evidence := [] }

/-- The same claim with a single supporting document. -/
noncomputable def claimOne : Claim :=
  { id := "claim_1", text := "Drug X reduces mortality", span_start := 0, span_end := 24
    supporting_docs := [toRef docA]
    contradicting_docs := [], neutral_docs := []
    confidence := 0, missing_evidence := [] }

/-- A claim with only neutral evidence. -/
noncomputable def claimNeutral : Claim :=
  { id := "claim_2", text := "Drug X is well tolerated", span_start := 25, span_end := 49
    supporting_docs := [], contradicting_docs := []
    neutral_docs := [toRef docB]
    confidence := 0, missing_evidence := [] }

theorem confidence_compute_spec_witness :
    num_sources claimNeutral.supporting_docs claimNeutral.contradicting_docs = 0
    ∧ evidence_agreement claimNeutral.supporting_docs claimNeutral.contradicting_docs = 0 :=
  ⟨by decide, (confidence_compute_spec 1 claimNeutral).2.2.2 (by decide)⟩

theorem confidence_zero_sources_witness :
    num_sources claimNeutral.supporting_docs claimNeutral.contradicting_docs = 0
    ∧ ConfidenceCalculator.compute 1 claimNeutral = 0 :=
  ⟨by decide, (confidence_zero_sources 1 claimNeutral).1 (by decide)⟩

theorem confidence_monotone_sources_witness :
    (0 : ℝ) < 1 ∧ (1 : ℝ) ≤ 1
    ∧ (pmidsOf claimThree.supporting_docs).dedup.length = 3
    ∧ claimThree.contradicting_docs = []
    ∧ (pmidsOf claimOne.supporting_docs).dedup.length = 1
    ∧ claimOne.contradicting_docs = []
    ∧ ConfidenceCalculator.compute 1 claimOne < ConfidenceCalculator.compute 1 claimThree :=
  ⟨by norm_num, le_refl 1, by decide, rfl, by decide, rfl,
    (confidence_monotone_sources 1 claimThree claimOne (by norm_num) (le_refl 1)
      (by decide) rfl (by decide) rfl).2.2⟩

/-- A concrete classification capability. -/
def classifyEx : String → RetrievedDocument → Verdict := fun _ d =>
  if d.pmid = "111" then Verdict.supports
  else if d.pmid = "222" then Verdict.contradicts
  else Verdict.neutral

def missingEx : String → List String := fun _ => []

def exClaim : ExtractedClaim :=
  { id := "claim_1", text := "Drug X reduces mortality", span_start := 0, span_end := 24 }

noncomputable def scoredClaimEx : Claim := buildClaim classifyEx missingEx 1 docsEx exClaim

theorem attribution_partition_witness :
    (docsEx.map RetrievedDocument.pmid).Nodup
    ∧ (¬("111" ∈ pmidsOf scoredClaimEx.supporting_docs
          ∧ "111" ∈ pmidsOf scoredClaimEx.contradicting_docs)
      ∧ ¬("111" ∈ pmidsOf scoredClaimEx.supporting_docs
          ∧ "111" ∈ pmidsOf scoredClaimEx.neutral_docs)
      ∧ ¬("111" ∈ pmidsOf scoredClaimEx.contradicting_docs
          ∧ "111" ∈ pmidsOf scoredClaimEx.neutral_docs)) :=
  ⟨by decide, attribution_partition classifyEx missingEx [] 1 "q" "a" docsEx [exClaim]
    (by decide) scoredClaimEx (by simp [runTrustLayer, scoredClaimEx]) "111"⟩

/-- An answer citing a pmid absent from the retrieved set. -/
def answerEx : String := "Drug X works [PMID:999]."

theorem hallucinated_citation_excluded_witness :
    "999" ∈ verify_citations answerEx docsEx
    ∧ hallucinationGap "999" ∈ (runTrustLayer classifyEx missingEx [] 1 "q" answerEx
        docsEx [exClaim]).global_gaps :=
  ⟨by decide, (hallucinated_citation_excluded classifyEx missingEx [] 1 "q" answerEx
    docsEx [exClaim] "999" (by decide)).2⟩

theorem total_sources_distinct_witness :
    "999" ∈ verify_citations answerEx docsEx
    ∧ ((runTrustLayer classifyEx missingEx [] 1 "q" answerEx docsEx
          [exClaim]).evidence_summary.total_sources
        = (citedPmids (runTrustLayer classifyEx missingEx [] 1 "q" answerEx docsEx
            [exClaim]).claims).toFinset.card
      ∧ "999" ∉ citedPmids (runTrustLayer classifyEx missingEx [] 1 "q" answerEx docsEx
          [exClaim]).claims) :=
  ⟨by decide, total_sources_distinct classifyEx missingEx [] 1 "q" answerEx docsEx
    [exClaim] "999" (by decide)⟩
